import Mathlib

/-!
# Verification of the robotin-control query pipeline

A shallow embedding of the core query-pipeline components of the
`robotin-control` repository: the query analyzer's confidence heuristic,
the retrieval service's scoring / reranking / deduplication, the prompt
builder's budgeted chunk selection and prompt assembly, the LLM service's
ordered provider fallback, and the response processor's citation
extraction, grounding check and confidence calibration.

Modelling conventions:
* JavaScript numbers used for scores and weights are embedded as `ℚ`
  (exact arithmetic with the literals appearing in the source).
* Strings are Lean `String`s; JavaScript `.length`, `.slice`,
  `.toLowerCase`, `.includes` are modelled over the underlying `List Char`.
* The fingerprint hash is kept as the 32-bit signed integer value the
  JavaScript code computes; the source renders it with `toString(16)`,
  which is injective, so fingerprint equality is preserved.
* `async` plumbing, logging, and network collaborators are dropped; the
  deterministic post-search portion of `RetrievalService.retrieve` and the
  provider-fallback loop of `LLMService.chat` are modelled as pure
  functions over the collaborators' observable outcomes.
-/

namespace Robotin

/-! ## Generic string helpers (JavaScript string operations) -/

/-- `isPrefList pat l` : does `l` start with `pat`? -/
def isPrefList : List Char → List Char → Bool
  | [], _ => true
  | _ :: _, [] => false
  | a :: as, b :: bs => a == b && isPrefList as bs

/-- `hasSubstr l pat` : does `pat` occur contiguously inside `l`? -/
def hasSubstr : List Char → List Char → Bool
  | [], pat => pat.isEmpty
  | h :: t, pat => isPrefList pat (h :: t) || hasSubstr t pat

/-- JavaScript `s.includes(pat)`. -/
def containsStr (s pat : String) : Bool :=
  hasSubstr s.data pat.data

/-- JavaScript `s.toLowerCase()` (BMP code points, as `Char.toLower`). -/
def lowerStr (s : String) : String :=
  ⟨s.data.map Char.toLower⟩

/-- A single apostrophe; several source literals contain one. -/
def apos : String := String.singleton (Char.ofNat 39)

/-- JavaScript `s.slice(0, n)` for a non-negative literal `n`. -/
def sliceTo (s : String) (n : Nat) : String :=
  ⟨s.data.take n⟩

/-! ## Data model

`SearchResult` is the vector-search collaborator's result shape
(`src/core/storage/vector.store.ts`); `RetrievedChunk` extends it with
`rank`, `score` and `duplicateOf` (`src/core/query/retrieval.service.ts`).
`DocumentType` is kept as a string tag (`'txt' | 'openapi' | 'plantuml'`). -/

/-- Metadata carried by a search result / retrieved chunk. -/
structure ChunkMetadata where
  documentType : String
  «section» : Option String
  weight : ℚ
  deriving DecidableEq, Repr

/-- A raw result from the vector-search collaborator. -/
structure SearchResult where
  chunkId : String
  documentId : String
  projectId : String
  content : String
  relevance : ℚ
  metadata : ChunkMetadata
  deriving DecidableEq, Repr

/-- A retrieved chunk: a search result plus ranking information. -/
structure RetrievedChunk where
  chunkId : String
  documentId : String
  projectId : String
  content : String
  relevance : ℚ
  metadata : ChunkMetadata
  rank : Nat
  score : ℚ
  duplicateOf : Option String := none
  deriving DecidableEq, Repr

/-- The eight query intents of `QueryAnalyzer` (`query-analyzer.ts`). -/
inductive QueryIntent where
  | definition | how_to | comparison | troubleshoot
  | architecture | api_reference | example | general
  deriving DecidableEq, Repr

/-- `AnalyzedQuery` (`query-analyzer.ts`). -/
structure AnalyzedQuery where
  original : String
  normalized : String
  intent : QueryIntent
  keywords : List String
  documentTypes : List String
  requiresCode : Bool
  requiresDiagram : Bool
  confidence : ℚ
  deriving DecidableEq, Repr

/-- `LLMResponse` (`llm.service.ts`); the provider tag is kept as a string. -/
structure LLMResponse where
  content : String
  tokensUsed : Option Nat := none
  model : String
  provider : String
  deriving DecidableEq, Repr

/-- `SourceCitation` (`response-processor.ts`). -/
structure SourceCitation where
  number : Nat
  chunkId : String
  documentId : String
  content : String
  relevance : ℚ
  deriving DecidableEq, Repr

/-- `ConfidenceLevel` (`response-processor.ts`). -/
inductive ConfidenceLevel where
  | high | medium | low | insufficient
  deriving DecidableEq, Repr

/-- `ResponseMetadata` (`response-processor.ts`). -/
structure ResponseMetadata where
  processingTimeMs : Nat
  chunksUsed : Nat
  tokensUsed : Option Nat := none
  modelUsed : Option String := none
  hasCitations : Bool
  isGrounded : Bool
  deriving DecidableEq, Repr

/-- `ProcessedResponse` (`response-processor.ts`). -/
structure ProcessedResponse where
  answer : String
  sources : List SourceCitation
  confidence : ConfidenceLevel
  metadata : ResponseMetadata
  deriving DecidableEq, Repr

/-! ## ResponseProcessor (`src/core/query/response-processor.ts`) -/

/-- Value of a run of decimal digits (JavaScript `parseInt(…, 10)`). -/
def digitsToNat (ds : List Char) : Nat :=
  ds.foldl (fun a c => a * 10 + (c.toNat - 48)) 0

/-- Strip `pat` off the front of `l`, returning the remainder on success. -/
def dropPref : List Char → List Char → Option (List Char)
  | [], l => some l
  | _ :: _, [] => none
  | a :: as, b :: bs => if a == b then dropPref as bs else none

/-- Does a complete `[source:N]` marker start here?  If so, its number.
Matches the regex `\[source:(\d+)\]` anchored at the current position. -/
def citationAt (l : List Char) : Option Nat :=
  match dropPref "[source:".data l with
  | none => none
  | some rest =>
    let ds := rest.takeWhile Char.isDigit
    if ds.isEmpty then none
    else
      match rest.dropWhile Char.isDigit with
      | ']' :: _ => some (digitsToNat ds)
      | _ => none

/-- All numbers of `[source:N]` markers occurring in the text, in order of
occurrence.  The source scans with a global regex, which never yields
overlapping matches; since a marker contains no inner `[`, a match can never
start inside another, so scanning every position finds the same markers. -/
def scanCitations : List Char → List Nat
  | [] => []
  | c :: rest =>
    match citationAt (c :: rest) with
    | some n => n :: scanCitations rest
    | none => scanCitations rest

namespace ResponseProcessor

/-- Excerpt of a cited chunk:
`chunk.content.slice(0, 200) + (chunk.content.length > 200 ? '...' : '')`. -/
def excerpt (content : String) : String :=
  sliceTo content 200 ++ (if 200 < content.data.length then "..." else "")

/-- Insert a citation into a list sorted ascending by `number` (the numbers
are distinct, so this realizes JavaScript `sort((a, b) => a.number - b.number)`). -/
def insertByNumber (c : SourceCitation) : List SourceCitation → List SourceCitation
  | [] => [c]
  | d :: ds => if c.number ≤ d.number then c :: d :: ds else d :: insertByNumber c ds

/-- Sort citations ascending by citation number. -/
def sortCitations (l : List SourceCitation) : List SourceCitation :=
  l.foldl (fun acc c => insertByNumber c acc) []

/-- `ResponseProcessor.extractCitations`: collect the distinct cited numbers,
resolve each 1-based number against the chunk list (markers referencing a
non-existent position are dropped), and sort by number.  A marker number `0`
indexes `chunks[-1]` in JavaScript, which is `undefined`, hence dropped. -/
def extractCitations (content : String) (chunks : List RetrievedChunk) :
    List SourceCitation :=
  let citedNumbers := (scanCitations content.data).dedup
  let citations := citedNumbers.filterMap fun num =>
    if num = 0 then none
    else
      match chunks.get? (num - 1) with
      | none => none
      | some chunk =>
        some { number := num
               chunkId := chunk.chunkId
               documentId := chunk.documentId
               content := excerpt chunk.content
               relevance := chunk.score }
  sortCitations citations

/-- The three explicit insufficiency admissions checked first by
`determineConfidence`. -/
def noInfoMarkers : List String :=
  ["i don" ++ apos ++ "t have enough information",
   "no relevant information",
   "not found in the documentation"]

/-- Does the lowercased text contain one of the explicit admissions? -/
def hasNoInfoAdmission (content : String) : Bool :=
  noInfoMarkers.any fun m => containsStr (lowerStr content) m

/-- The uncertainty-hedging phrases of `determineConfidence`. -/
def uncertaintyMarkers : List String :=
  ["might be", "could be", "possibly", "perhaps", "maybe",
   "i" ++ apos ++ "m not sure", "unclear", "ambiguous", "appears to"]

/-- `ResponseProcessor.determineConfidence`.  With zero citations the source
computes `avgRelevance = 0/0 = NaN`, whose comparisons are all false; `ℚ`
division gives `0/0 = 0`, with comparisons against `0.8` and `0.6` likewise
false, so the branch outcomes coincide. -/
def determineConfidence (content : String) (citations : List SourceCitation)
    (_chunks : List RetrievedChunk) : ConfidenceLevel :=
  if hasNoInfoAdmission content then .insufficient
  else
    let score0 : ℚ := 0
    let score1 := if citations.length > 0 then score0 + 0.3 else score0
    let avgRelevance : ℚ :=
      (citations.map SourceCitation.relevance).sum / (citations.length : ℚ)
    let score2 :=
      if avgRelevance > 0.8 then score1 + 0.3
      else if avgRelevance > 0.6 then score1 + 0.2
      else score1
    let score3 :=
      if citations.length ≥ 3 then score2 + 0.2
      else if citations.length ≥ 2 then score2 + 0.1
      else score2
    let hasUncertainty := uncertaintyMarkers.any fun m => containsStr (lowerStr content) m
    let score := if !hasUncertainty then score3 + 0.2 else score3
    if score ≥ 0.8 then .high
    else if score ≥ 0.5 then .medium
    else if score ≥ 0.3 then .low
    else .insufficient

/-- The hallucination markers of `checkGrounding` (note `"i believe"`). -/
def hallucinationMarkers : List String :=
  ["according to my knowledge",
   "as an ai",
   "i believe",
   "in my opinion",
   "typically",
   "usually",
   "generally"]

/-- `ResponseProcessor.checkGrounding`. -/
def checkGrounding (content : String) (citations : List SourceCitation) : Bool :=
  if citations.length = 0 then false
  else !(hallucinationMarkers.any fun m => containsStr (lowerStr content) m)

/-- `ResponseProcessor.cleanAnswer`: `content.trim()`. -/
def cleanAnswer (content : String) : String := content.trim

/-- `ResponseProcessor.process`. -/
def process (llmResponse : LLMResponse) (contextChunks : List RetrievedChunk)
    (processingTimeMs : Nat) : ProcessedResponse :=
  let content := llmResponse.content
  let citations := extractCitations content contextChunks
  let confidence := determineConfidence content citations contextChunks
  let isGrounded := checkGrounding content citations
  let answer := cleanAnswer content
  { answer
    sources := citations
    confidence
    metadata :=
      { processingTimeMs
        chunksUsed := contextChunks.length
        tokensUsed := llmResponse.tokensUsed
        modelUsed := some llmResponse.model
        hasCitations := decide (0 < citations.length)
        isGrounded } }

/-- `ResponseProcessor.processNoInfoResponse`. -/
def processNoInfoResponse (processingTimeMs : Nat) : ProcessedResponse :=
  { answer :=
      "I don" ++ apos ++ "t have enough information in the indexed documentation to answer that question.\n\nYou can:\n1. Try rephrasing your question\n2. Add relevant documentation with `robotin add <file>`\n3. Check if the topic exists under a different name"
    sources := []
    confidence := .insufficient
    metadata :=
      { processingTimeMs
        chunksUsed := 0
        hasCitations := false
        isGrounded := true } }

end ResponseProcessor

/-! ## PromptBuilder (`src/core/query/prompt-builder.ts`) -/

/-- Response format type. -/
inductive ResponseFormat where
  | markdown | json
  deriving DecidableEq, Repr

/-- `BuiltPrompt`. -/
structure BuiltPrompt where
  systemPrompt : String
  userPrompt : String
  contextChunks : List RetrievedChunk
  estimatedTokens : Nat
  deriving DecidableEq, Repr

namespace PromptBuilder

/-- `MAX_CONTEXT_TOKENS`. -/
def MAX_CONTEXT_TOKENS : Nat := 4000

/-- `TOKEN_ESTIMATE_RATIO` (chars per token). -/
def TOKEN_ESTIMATE_RATIO : Nat := 4

/-- `estimateTokens`: `Math.ceil(text.length / 4)`. -/
def estimateTokens (text : String) : Nat :=
  (text.data.length + ( TOKEN_ESTIMATE_RATIO - 1)) / TOKEN_ESTIMATE_RATIO

/-- Token estimate of one chunk's content inside `selectChunks`:
`Math.ceil(chunk.content.length / this.TOKEN_ESTIMATE_RATIO)`. -/
def chunkTokens (chunk : RetrievedChunk) : Nat :=
  (chunk.content.data.length + ( TOKEN_ESTIMATE_RATIO - 1)) / TOKEN_ESTIMATE_RATIO

/-- The loop body of `selectChunks`: `estimatedTokens` is the running total,
`nonempty` records `selected.length > 0`; the `break` abandons the rest. -/
def selectAux : List RetrievedChunk → Nat → Bool → List RetrievedChunk
  | [], _, _ => []
  | c :: cs, estimatedTokens, nonempty =>
    if estimatedTokens + chunkTokens c > MAX_CONTEXT_TOKENS ∧ nonempty = true then []
    else c :: selectAux cs (estimatedTokens + chunkTokens c) true

/-- `selectChunks`. -/
def selectChunks (chunks : List RetrievedChunk) : List RetrievedChunk :=
  selectAux chunks 0 false

/-- Total content-token estimate of a chunk list: the running total the
`selectChunks` loop accumulates over the chunks it has accepted. -/
def sumTokens (chunks : List RetrievedChunk) : Nat :=
  (chunks.map chunkTokens).sum

/-- The base-instruction block of `buildSystemPrompt`. -/
def baseInstructions : String :=
  "You are a technical documentation assistant. Your responses must be:\n\n1. **GROUNDED IN FACTS**: Only use information from the provided context. Do not use external knowledge.\n2. **CITATION REQUIRED**: Cite sources for every significant claim using [source:N] format.\n3. **HONEST ABOUT LIMITATIONS**: If the context doesn" ++ apos ++ "t contain the answer, say \"I don" ++ apos ++ "t have enough information to answer that.\"\n4. **PRECISE**: Be specific and technical. Avoid vague generalizations.\n5. **STRUCTURED**: Organize information clearly with headers, lists, and code blocks as appropriate."

/-- The anti-hallucination block of `buildSystemPrompt`. -/
def antiHallucination : String :=
  "\n\n**CRITICAL - ANTI-HALLUCINATION RULES**:\n- NEVER invent API endpoints, parameters, or return values not in the context\n- NEVER make up code examples\n- NEVER assume functionality not explicitly documented\n- If information seems incomplete, state what is missing\n- When uncertain, express confidence level (high/medium/low)"

/-- The format-instruction block of `buildSystemPrompt`. -/
def formatInstructions (format : ResponseFormat) : String :=
  match format with
  | .json =>
    "\n\n**OUTPUT FORMAT - JSON**:\nRespond with a JSON object containing:\n\x7b\n  \"answer\": \"Your detailed answer with citations\",\n  \"confidence\": \"high|medium|low\",\n  \"sources\": [1, 2, 3],\n  \"missingInfo\": \"Any information that would be needed for a complete answer\"\n\x7d"
  | .markdown =>
    "\n\n**OUTPUT FORMAT - MARKDOWN**:\nUse markdown formatting:\n- Headers (##) for sections\n- Code blocks (```language) for code\n- Bullet points for lists\n- **Bold** for important terms\n- [source:N] citations inline"

/-- `getIntentSpecificInstructions`. -/
def getIntentSpecificInstructions (intent : QueryIntent) : String :=
  match intent with
  | .definition => "\n\n**TASK - DEFINITION**: Provide a clear, technical definition. Include purpose, key characteristics, and relationships to other concepts."
  | .how_to => "\n\n**TASK - HOW-TO**: Provide step-by-step instructions. Number each step. Include prerequisites and expected outcomes."
  | .comparison => "\n\n**TASK - COMPARISON**: Create a structured comparison. Use a table if comparing multiple items. Highlight key differences clearly."
  | .troubleshoot => "\n\n**TASK - TROUBLESHOOTING**: Identify the issue, provide diagnostic steps, and offer solutions. Include common causes."
  | .architecture => "\n\n**TASK - ARCHITECTURE**: Describe components, their relationships, and data flow. Reference diagrams if available."
  | .api_reference => "\n\n**TASK - API REFERENCE**: Document endpoints, methods, parameters, and responses. Include example requests/responses."
  | .example => "\n\n**TASK - EXAMPLE**: Provide concrete, runnable examples. Explain what the code does and when to use it."
  | .general => ""

/-- `buildSystemPrompt`. -/
def buildSystemPrompt (intent : QueryIntent) (format : ResponseFormat) : String :=
  baseInstructions ++ antiHallucination ++ formatInstructions format
    ++ getIntentSpecificInstructions intent

/-- JavaScript `q.toFixed(1)` for the non-negative relevance percentages
rendered by `buildContextSection` (round to one decimal, half up). -/
def toFixed1 (q : ℚ) : String :=
  let m : Int := ⌊q * 10 + 1 / 2⌋
  let sign := if m < 0 then "-" else ""
  sign ++ toString (m.natAbs / 10) ++ "." ++ toString (m.natAbs % 10)

/-- The `Metadata` line of one rendered context source. -/
def chunkMetadataLine (chunk : RetrievedChunk) : String :=
  let parts :=
    ["Type: " ++ chunk.metadata.documentType] ++
    (match chunk.metadata.«section» with
     | some s => ["Section: " ++ s]
     | none => []) ++
    ["Relevance: " ++ toFixed1 (chunk.score * 100) ++ "%"]
  String.intercalate " | " parts

/-- The per-chunk sections of `buildContextSection`
(`chunks.map((chunk, index) => …)`, with `sourceNum = index + 1`). -/
def contextSections : Nat → List RetrievedChunk → List String
  | _, [] => []
  | i, c :: cs =>
    ("### Source " ++ toString (i + 1) ++ "\n**Metadata**: " ++ chunkMetadataLine c
      ++ "\n\n" ++ c.content) :: contextSections (i + 1) cs

/-- `buildContextSection`. -/
def buildContextSection (chunks : List RetrievedChunk) : String :=
  if chunks.isEmpty then "## Context\n\nNo relevant context found."
  else "## Context\n\n" ++ String.intercalate "\n\n---\n\n" (contextSections 0 chunks)

/-- `buildUserPrompt`. -/
def buildUserPrompt (query : AnalyzedQuery) (chunks : List RetrievedChunk)
    (_format : ResponseFormat) : String :=
  let contextSection := buildContextSection chunks
  let querySection := "## Question\n\n" ++ query.original
  let constraints := "\n\n## Constraints\n- Answer based ONLY on the provided context\n- Cite sources using [source:N] format\n- Be concise but complete\n- If information is insufficient, say so explicitly"
  contextSection ++ "\n\n" ++ querySection ++ constraints

/-- `PromptBuilder.build`. -/
def build (query : AnalyzedQuery) (chunks : List RetrievedChunk)
    (format : ResponseFormat) : BuiltPrompt :=
  let selectedChunks := selectChunks chunks
  let systemPrompt := buildSystemPrompt query.intent format
  let userPrompt := buildUserPrompt query selectedChunks format
  { systemPrompt
    userPrompt
    contextChunks := selectedChunks
    estimatedTokens := estimateTokens (systemPrompt ++ userPrompt) }

end PromptBuilder

/-! ## QueryAnalyzer (`src/core/query/query-analyzer.ts`) -/

namespace QueryAnalyzer

/-- `QueryAnalyzer.calculateConfidence`.  `analyze` calls it on the
normalized query text and the detected intent; the bound theorems below
quantify over both arguments, so they cover every `analyze` result. -/
def calculateConfidence (query : String) (intent : QueryIntent) : ℚ :=
  let c0 : ℚ := 0.5
  let c1 := if query.data.length > 20 then c0 + 0.1 else c0
  let c2 := if query.data.length > 50 then c1 + 0.1 else c1
  let c3 := if intent ≠ .general then c2 + 0.2 else c2
  let c4 := if query.data.length < 10 then c3 - 0.2 else c3
  min 1 (max 0 c4)

end QueryAnalyzer

/-! ## RetrievalService (`src/core/query/retrieval.service.ts`) -/

/-- JavaScript `trim()`: drop whitespace from both ends. -/
def trimChars (l : List Char) : List Char :=
  ((l.dropWhile Char.isWhitespace).reverse.dropWhile Char.isWhitespace).reverse

/-- Collapse every maximal run of whitespace to a single space
(JavaScript `replace(/\s+/g, ' ')`; the flag records whether the previous
character was whitespace). -/
def collapseWsAux : Bool → List Char → List Char
  | _, [] => []
  | prevWs, c :: cs =>
    if c.isWhitespace then
      if prevWs then collapseWsAux true cs else ' ' :: collapseWsAux true cs
    else c :: collapseWsAux false cs

/-- Wrap an integer into the signed 32-bit range (JavaScript `ToInt32`,
applied by `<< 5` and by `hash & hash`). -/
def toInt32 (n : Int) : Int :=
  (n + 2 ^ 31) % 2 ^ 32 - 2 ^ 31

/-- One step of the fingerprint hash loop:
`hash = ((hash << 5) - hash) + char; hash = hash & hash`.  The shift wraps
its result to 32 bits; the subtraction and addition are exact at these
magnitudes; `hash & hash` wraps the sum back to 32 bits. -/
def hashStep (hash : Int) (c : Char) : Int :=
  toInt32 (toInt32 (hash * 32) - hash + c.toNat)

namespace RetrievalService

/-- Retrieval options as the caller supplies them (every field optional,
matching the TypeScript object literal). -/
structure RetrievalOptions where
  projectId : Option String := none
  documentTypes : Option (List String) := none
  limit : Option Nat := none
  threshold : Option ℚ := none
  rerank : Option Bool := none
  deduplicate : Option Bool := none
  deriving DecidableEq, Repr

/-- Options after the `{ ...DEFAULT_RETRIEVAL_OPTIONS, ...options }` merge. -/
structure ResolvedRetrievalOptions where
  projectId : Option String
  documentTypes : Option (List String)
  limit : Nat
  threshold : ℚ
  rerank : Bool
  deduplicate : Bool
  deriving DecidableEq, Repr

/-- `DEFAULT_RETRIEVAL_OPTIONS` (`projectId`/`documentTypes` absent). -/
def DEFAULT_RETRIEVAL_OPTIONS : ResolvedRetrievalOptions :=
  { projectId := none
    documentTypes := none
    limit := 10
    threshold := 0.3
    rerank := true
    deduplicate := true }

/-- The merge `{ ...DEFAULT_RETRIEVAL_OPTIONS, ...options }`: a field given
by the caller wins, an absent field keeps its default. -/
def resolveRetrievalOptions (options : RetrievalOptions) : ResolvedRetrievalOptions :=
  { projectId := options.projectId <|> DEFAULT_RETRIEVAL_OPTIONS.projectId
    documentTypes := options.documentTypes <|> DEFAULT_RETRIEVAL_OPTIONS.documentTypes
    limit := options.limit.getD DEFAULT_RETRIEVAL_OPTIONS.limit
    threshold := options.threshold.getD DEFAULT_RETRIEVAL_OPTIONS.threshold
    rerank := options.rerank.getD DEFAULT_RETRIEVAL_OPTIONS.rerank
    deduplicate := options.deduplicate.getD DEFAULT_RETRIEVAL_OPTIONS.deduplicate }

/-- `RetrievalService.calculateScore`. -/
def calculateScore (result : SearchResult) (query : AnalyzedQuery) : ℚ :=
  let score0 := result.relevance
  let score1 := score0 * (1 + result.metadata.weight * 0.2)
  let score2 :=
    if query.intent = .api_reference ∧ result.metadata.documentType = "openapi"
    then score1 * 1.1 else score1
  let score3 :=
    if query.intent = .architecture ∧ result.metadata.documentType = "plantuml"
    then score2 * 1.1 else score2
  min 1 score3

/-- Insert a chunk into a descending-by-score list, after every chunk of
score ≥ its own: together with `sortByScoreDesc` this realizes the stable
descending sort `[...chunks].sort((a, b) => b.score - a.score)`. -/
def insertDesc (c : RetrievedChunk) : List RetrievedChunk → List RetrievedChunk
  | [] => [c]
  | d :: ds => if d.score < c.score then c :: d :: ds else d :: insertDesc c ds

/-- Stable sort, descending by `score`. -/
def sortByScoreDesc (chunks : List RetrievedChunk) : List RetrievedChunk :=
  chunks.foldl (fun acc c => insertDesc c acc) []

/-- `sorted.map((chunk, i) => ({ ...chunk, rank: i + 1 }))`, from starting
index `i`. -/
def assignRanks : Nat → List RetrievedChunk → List RetrievedChunk
  | _, [] => []
  | i, c :: cs => { c with rank := i } :: assignRanks (i + 1) cs

/-- `RetrievalService.rerank` (its `query` argument is unused in the body). -/
def rerank (chunks : List RetrievedChunk) (_query : AnalyzedQuery) :
    List RetrievedChunk :=
  assignRanks 1 (sortByScoreDesc chunks)

/-- `RetrievalService.createFingerprint`.  The source finally renders the
32-bit hash with `toString(16)`, which is injective, so the hash value
itself serves as the fingerprint.  `charCodeAt` is modelled as the code
point (they agree on the Basic Multilingual Plane). -/
def createFingerprint (content : String) : Int :=
  let normalized := (trimChars (collapseWsAux false (lowerStr content).data)).take 100
  normalized.foldl hashStep 0

/-- First chunk stored under fingerprint `fp` (JavaScript `Map.get`). -/
def lookupFp (fp : Int) : List (Int × RetrievedChunk) → Option RetrievedChunk
  | [] => none
  | (k, c) :: rest => if k = fp then some c else lookupFp fp rest

/-- Replace the chunk stored under `fp`, in place (JavaScript `Map.set` on
an existing key keeps the key's insertion position). -/
def replaceFp (fp : Int) (c : RetrievedChunk) :
    List (Int × RetrievedChunk) → List (Int × RetrievedChunk)
  | [] => []
  | (k, d) :: rest =>
    if k = fp then (k, c) :: rest else (k, d) :: replaceFp fp c rest

/-- The loop of `deduplicate` over the insertion-ordered `seen` map.  On a
fingerprint collision the incoming chunk replaces the stored one only when
it scores strictly higher, in which case it absorbs the stored chunk's id
as `duplicateOf`; otherwise the incoming chunk is dropped (its id goes only
into a local `duplicates` log array). -/
def dedupGo : List (Int × RetrievedChunk) → List RetrievedChunk →
    List (Int × RetrievedChunk)
  | seen, [] => seen
  | seen, chunk :: rest =>
    let fp := createFingerprint chunk.content
    match lookupFp fp seen with
    | some existing =>
      if chunk.score > existing.score then
        dedupGo (replaceFp fp { chunk with duplicateOf := some existing.chunkId } seen) rest
      else dedupGo seen rest
    | none => dedupGo (seen ++ [(fp, chunk)]) rest

/-- `RetrievalService.deduplicate`: `Array.from(seen.values())`. -/
def deduplicate (chunks : List RetrievedChunk) : List RetrievedChunk :=
  (dedupGo [] chunks).map Prod.snd

/-- `results.map((r, i) => ({ ...r, rank: i + 1, score: … }))`. -/
def toChunks (query : AnalyzedQuery) : Nat → List SearchResult → List RetrievedChunk
  | _, [] => []
  | i, r :: rs =>
    { chunkId := r.chunkId
      documentId := r.documentId
      projectId := r.projectId
      content := r.content
      relevance := r.relevance
      metadata := r.metadata
      rank := i + 1
      score := calculateScore r query } :: toChunks query (i + 1) rs

/-- The deterministic tail of `RetrievalService.retrieve`, applied to the
results the vector-search collaborator returned: convert and score, rerank
if enabled, deduplicate if enabled, truncate to the limit. -/
def retrievePost (analyzedQuery : AnalyzedQuery) (options : RetrievalOptions)
    (results : List SearchResult) : List RetrievedChunk :=
  let opts := resolveRetrievalOptions options
  let chunks0 := toChunks analyzedQuery 0 results
  let chunks1 := if opts.rerank then rerank chunks0 analyzedQuery else chunks0
  let chunks2 := if opts.deduplicate then deduplicate chunks1 else chunks1
  chunks2.take opts.limit

end RetrievalService

/-! ## LLMService (`src/core/llm/llm.service.ts`) -/

namespace LLMService

/-- The observable behaviour of one provider during a `chat` call: its
name, the availability probe's verdict, and the call's outcome were it
attempted. -/
structure ProviderBehavior where
  name : String
  available : Bool
  result : Except String LLMResponse
  deriving Repr

/-- `errors.map(e => `…`).join(', ')` of the aggregate error. -/
def formatErrors (errors : List (String × String)) : String :=
  String.intercalate ", " (errors.map fun e => e.1 ++ " (" ++ e.2 ++ ")")

/-- The aggregate failure message thrown after the provider loop. -/
def aggregateMessage (errors : List (String × String)) : String :=
  "All LLM providers failed: " ++ formatErrors errors

/-- The provider loop of `LLMService.chat`: skip unavailable providers
(recording nothing), return the first successful call, record failures,
and throw the aggregate error when no provider returned. -/
def chatGo (errors : List (String × String)) :
    List ProviderBehavior → Except String LLMResponse
  | [] => .error (aggregateMessage errors)
  | p :: ps =>
    if p.available = false then chatGo errors ps
    else
      match p.result with
      | .ok r => .ok r
      | .error e => chatGo (errors ++ [(p.name, e)]) ps

/-- `LLMService.chat` over the configured provider list. -/
def chat (providers : List ProviderBehavior) : Except String LLMResponse :=
  chatGo [] providers

end LLMService

/-! ## QueryEngine (`src/core/query/query-engine.ts`) -/

namespace QueryEngine

/-- Caller-facing `QueryOptions` (every field optional). -/
structure QueryOptions where
  projectId : Option String := none
  format : Option ResponseFormat := none
  temperature : Option ℚ := none
  maxTokens : Option Nat := none
  includeSources : Option Bool := none
  deriving DecidableEq, Repr

/-- The retrieval options `QueryEngine.query` passes to
`retrieval.retrieve`: the object literal
`{ projectId: opts.projectId, limit: 10, threshold: 0.6 }`. -/
def retrievalArgs (opts : QueryOptions) : RetrievalService.RetrievalOptions :=
  { projectId := opts.projectId
    limit := some 10
    threshold := some 0.6 }

end QueryEngine

/-! ## Concrete example inputs

Shared concrete values used by the counterexamples and witnesses below. -/

/-- A chunk with the given identity, content, score and rank (weight 0,
plain-text metadata, no section label). -/
def exChunk (id content : String) (score : ℚ) (rank : Nat) : RetrievedChunk :=
  { chunkId := id
    documentId := "d"
    projectId := "p"
    content := content
    relevance := score
    metadata := { documentType := "txt", «section» := none, weight := 0 }
    rank := rank
    score := score }

/-- A search result with the given identity, content and relevance. -/
def exSearchResult (id content : String) (rel : ℚ) : SearchResult :=
  { chunkId := id
    documentId := "d"
    projectId := "p"
    content := content
    relevance := rel
    metadata := { documentType := "txt", «section» := none, weight := 0 } }

/-- A concrete analyzed query with `general` intent. -/
def exQuery : AnalyzedQuery :=
  { original := "what is x?"
    normalized := "what is x"
    intent := .general
    keywords := []
    documentTypes := []
    requiresCode := false
    requiresDiagram := false
    confidence := 0.5 }

/-- A chunk whose content is 15996 repetitions of `a`: its token estimate is
`⌈15996 / 4⌉ = 3999`, strictly below the 4000-token budget. -/
def bigChunk : RetrievedChunk :=
  exChunk "big" (String.mk (List.replicate 15996 'a')) 0.5 1

/-- The retrieval pipeline tail applied, with default options, to three
search results of which the first two have identical content (hence
colliding fingerprints) and scores `0.9`, `0.7`, `0.5`. -/
def exPipelineResult : List RetrievedChunk :=
  RetrievalService.retrievePost exQuery {}
    [exSearchResult "c1" "dup" 0.9, exSearchResult "c2" "dup" 0.7,
     exSearchResult "c3" "uniq" 0.5]

/-- The six ungrounded-knowledge phrasings named by the specification's
grounding rule (the source checks a seventh, `"i believe"`). -/
def specSixMarkers : List String :=
  ["according to my knowledge", "as an ai", "typically", "usually",
   "generally", "in my opinion"]

/-- A concrete LLM response whose text opens with `"i believe"` and cites
source 1. -/
def exResponse7 : LLMResponse :=
  { content := "i believe the answer is yes [source:1]"
    model := "m"
    provider := "lmstudio" }

/-- A concrete LLM response with no citation markers and no admission. -/
def exResponse1 : LLMResponse :=
  { content := "hello world"
    model := "m"
    provider := "lmstudio" }

/-! ## Theorems -/

/-! ### C9 — the canned no-information response -/

/-- C9: the canned zero-passage response of
`ResponseProcessor.processNoInfoResponse` always reports
`metadata.isGrounded = true` and `metadata.hasCitations = false` with an
empty sources list, even though it has zero resolved citations: applied to
its answer and empty citation list, the general grounding rule
`checkGrounding` returns `false`. -/
theorem C9_noInfoResponse_grounded (t : Nat) :
    (ResponseProcessor.processNoInfoResponse t).metadata.isGrounded = true ∧
    (ResponseProcessor.processNoInfoResponse t).metadata.hasCitations = false ∧
    (ResponseProcessor.processNoInfoResponse t).sources = [] ∧
    ResponseProcessor.checkGrounding (ResponseProcessor.processNoInfoResponse t).answer
      (ResponseProcessor.processNoInfoResponse t).sources = false :=
  ⟨rfl, rfl, rfl, rfl⟩

/-! ### C8 — the query engine's fixed retrieval parameters -/

/-- C8: for every caller-supplied `QueryOptions`, the retrieval options
`QueryEngine.query` passes to `retrieve` resolve (after the merge with
`DEFAULT_RETRIEVAL_OPTIONS`) to the fixed limit `10` and the fixed
minimum-score threshold `0.6`, overriding the retrieval service's
documented default threshold `0.3`; no field of `QueryOptions` can change
the two values. -/
theorem C8_fixed_retrieval_params (opts : QueryEngine.QueryOptions) :
    (RetrievalService.resolveRetrievalOptions (QueryEngine.retrievalArgs opts)).limit = 10 ∧
    (RetrievalService.resolveRetrievalOptions (QueryEngine.retrievalArgs opts)).threshold = 0.6 ∧
    RetrievalService.DEFAULT_RETRIEVAL_OPTIONS.threshold = 0.3 ∧
    (RetrievalService.resolveRetrievalOptions (QueryEngine.retrievalArgs opts)).threshold ≠
      RetrievalService.DEFAULT_RETRIEVAL_OPTIONS.threshold := by
  refine ⟨rfl, rfl, rfl, ?_⟩
  show (0.6 : ℚ) ≠ 0.3
  norm_num

/-! ### C10 — the analyzer's confidence bounds -/

/-- C10: for every text and every intent, the confidence computed by
`QueryAnalyzer.calculateConfidence` (hence the confidence of every
`analyze` result, which is `calculateConfidence` on the normalized text
and detected intent) lies in the closed interval `[0.3, 0.9]`; in
particular the clamp bounds `0` and `1` are never attained. -/
theorem C10_confidence_bounds (query : String) (intent : QueryIntent) :
    0.3 ≤ QueryAnalyzer.calculateConfidence query intent ∧
    QueryAnalyzer.calculateConfidence query intent ≤ 0.9 := by
  unfold QueryAnalyzer.calculateConfidence
  split_ifs <;> first
    | (exfalso; omega)
    | (constructor <;> norm_num [min_def, max_def])

/-! ### C4 — exhausted provider fallback -/

/-- C4 counterexample: a single provider that is unavailable (skipped by
the availability probe) yields the aggregate error message
`"All LLM providers failed: "`, which does not contain the provider's
name — refuting the claim that the aggregate message names every
unavailable-or-failing provider. -/
theorem C4_counterexample :
    LLMService.chat [{ name := "lmstudio", available := false, result := .error "ECONNREFUSED" }] =
      .error "All LLM providers failed: " ∧
    containsStr "All LLM providers failed: " "lmstudio" = false :=
  ⟨rfl, by decide⟩

/-- Helper for C4: the provider loop, when no provider is available and
succeeding, throws the aggregate message over the accumulated errors plus
the name/reason pairs of exactly the available-but-failing providers. -/
theorem chatGo_exhausted (ps : List LLMService.ProviderBehavior) :
    ∀ errors : List (String × String),
    (∀ p ∈ ps, p.available = false ∨ ∃ e, p.result = .error e) →
    LLMService.chatGo errors ps =
      .error (LLMService.aggregateMessage (errors ++ ps.filterMap fun p =>
        if p.available then
          match p.result with
          | .error e => some (p.name, e)
          | .ok _ => none
        else none)) := by
  induction ps with
  | nil => intro errors _; simp [LLMService.chatGo]
  | cons p ps ih =>
    intro errors h
    have hp := h p (List.mem_cons_self p ps)
    have hps := fun q hq => h q (List.mem_cons_of_mem p hq)
    cases hav : p.available with
    | false =>
      simp only [LLMService.chatGo, hav, if_pos rfl, List.filterMap_cons, Bool.false_eq_true,
        if_neg (Bool.false_ne_true)]
      exact ih errors hps
    | true =>
      rcases hp with hfalse | ⟨e, he⟩
      · exact absurd (hav ▸ hfalse) (by simp)
      · simp only [LLMService.chatGo, hav, he, List.filterMap_cons, if_pos rfl]
        rw [ih (errors ++ [(p.name, e)]) hps]
        simp

/-- C4 (corrected): if every provider is unavailable or fails its call,
`LLMService.chat` throws the aggregate error — it never returns a
response — and the message lists, in order, the name and failure reason of
exactly those providers that were probed available and then failed;
providers skipped as unavailable are omitted from the message. -/
theorem C4_amended_chat_exhausted (providers : List LLMService.ProviderBehavior)
    (h : ∀ p ∈ providers, p.available = false ∨ ∃ e, p.result = .error e) :
    LLMService.chat providers =
      .error (LLMService.aggregateMessage (providers.filterMap fun p =>
        if p.available then
          match p.result with
          | .error e => some (p.name, e)
          | .ok _ => none
        else none)) := by
  have := chatGo_exhausted providers [] h
  simpa [LLMService.chat] using this

/-- Witness for C4: one unavailable provider and one failing provider;
the aggregate message lists only the failing one. -/
theorem C4_amended_witness :
    LLMService.chat
      [{ name := "lmstudio", available := false, result := .error "ECONNREFUSED" },
       { name := "openai", available := true, result := .error "401 Unauthorized" }] =
      .error (LLMService.aggregateMessage [("openai", "401 Unauthorized")]) :=
  C4_amended_chat_exhausted _ (by
    intro p hp
    rcases List.mem_cons.mp hp with rfl | hp2
    · exact Or.inl rfl
    · rcases List.mem_cons.mp hp2 with rfl | hp3
      · exact Or.inr ⟨"401 Unauthorized", rfl⟩
      · cases hp3)

/-! ### C2 — deduplication of a colliding pair -/

/-- C2 counterexample: two chunks with identical content (hence colliding
fingerprints) and scores `0.9` and `0.7`, in that encounter order.
Deduplication retains the `0.9` chunk, but its `duplicateOf` stays `none`:
the `0.7` chunk's identifier `"c2"` is not recorded anywhere in the
result, refuting the claimed back-reference. -/
theorem C2_counterexample :
    (RetrievalService.deduplicate
        [exChunk "c1" "dup" 0.9 1, exChunk "c2" "dup" 0.7 2]).map
      (fun c => (c.chunkId, c.duplicateOf)) = [("c1", none)] := by
  norm_num [RetrievalService.deduplicate, RetrievalService.dedupGo,
    RetrievalService.lookupFp, exChunk]

/-- C2 (corrected): for a two-chunk list with colliding fingerprints, the
higher-scoring chunk survives, but a `duplicateOf` back-reference is
recorded only when the *later* chunk strictly outscores the earlier one —
and then it names the earlier chunk.  When the earlier chunk scores at
least as high (the claim's 0.9-then-0.7 scenario), it survives unchanged
and no back-reference is recorded; the duplicate's identifier goes only
into a local log array. -/
theorem C2_amended_dedup_pair (c1 c2 : RetrievedChunk)
    (hfp : RetrievalService.createFingerprint c1.content =
      RetrievalService.createFingerprint c2.content) :
    (¬ c1.score < c2.score → RetrievalService.deduplicate [c1, c2] = [c1]) ∧
    (c1.score < c2.score → RetrievalService.deduplicate [c1, c2] =
      [{ c2 with duplicateOf := some c1.chunkId }]) := by
  constructor <;> intro hs <;>
    simp [RetrievalService.deduplicate, RetrievalService.dedupGo,
      RetrievalService.lookupFp, RetrievalService.replaceFp, ← hfp, hs]

/-- Witness for C2: the 0.9-then-0.7 colliding pair; the 0.9 chunk
survives unchanged. -/
theorem C2_amended_witness :
    RetrievalService.deduplicate [exChunk "c1" "dup" 0.9 1, exChunk "c2" "dup" 0.7 2] =
      [exChunk "c1" "dup" 0.9 1] :=
  (C2_amended_dedup_pair (exChunk "c1" "dup" 0.9 1) (exChunk "c2" "dup" 0.7 2) rfl).1
    (by norm_num [exChunk])

/-! ### C7 — the grounding check's marker set -/

/-- C7 counterexample: an answer that cites source 1 (so one citation
resolves) and contains none of the six phrasings named by the claim, yet
`process` reports it *not* grounded — the source checks a seventh marker,
`"i believe"`, which this answer contains. -/
theorem C7_counterexample :
    (ResponseProcessor.process exResponse7 [exChunk "c1" "one" 0.9 1] 0).metadata.isGrounded
        = false ∧
    (ResponseProcessor.process exResponse7 [exChunk "c1" "one" 0.9 1] 0).sources ≠ [] ∧
    specSixMarkers.all (fun m => !containsStr (lowerStr exResponse7.content) m) = true := by
  refine ⟨by decide, by decide, by decide⟩

/-- Helper for C7 and C1: `checkGrounding` is true exactly on a non-empty
citation list with none of the seven hallucination markers present. -/
theorem checkGrounding_eq_true_iff (content : String) (citations : List SourceCitation) :
    ResponseProcessor.checkGrounding content citations = true ↔
      (citations ≠ [] ∧ ∀ m ∈ ResponseProcessor.hallucinationMarkers,
        containsStr (lowerStr content) m = false) := by
  unfold ResponseProcessor.checkGrounding
  rcases citations with _ | ⟨c, cs⟩
  · simp
  · simp [List.any_eq_true]

/-- C7 (corrected): `metadata.isGrounded` is true exactly when at least one
citation was resolved and the text contains none of the *seven* fixed
ungrounded-knowledge phrasings — the six named by the claim plus
`"i believe"` (all case-insensitive). -/
theorem C7_amended_grounded_iff (resp : LLMResponse) (chunks : List RetrievedChunk) (t : Nat) :
    (ResponseProcessor.process resp chunks t).metadata.isGrounded = true ↔
      (ResponseProcessor.extractCitations resp.content chunks ≠ [] ∧
        ∀ m ∈ ResponseProcessor.hallucinationMarkers,
          containsStr (lowerStr resp.content) m = false) :=
  checkGrounding_eq_true_iff resp.content
    (ResponseProcessor.extractCitations resp.content chunks)

/-! ### C1 — insufficient confidence iff no citations or admission -/

/-- Helper for C1: the final score-to-level mapping never yields
`insufficient` once the score has reached `0.3`. -/
theorem level_chain_ne {s : ℚ} (h : 0.3 ≤ s) :
    (if s ≥ 0.8 then ConfidenceLevel.high
     else if s ≥ 0.5 then ConfidenceLevel.medium
     else if s ≥ 0.3 then ConfidenceLevel.low
     else ConfidenceLevel.insufficient) ≠ ConfidenceLevel.insufficient := by
  split_ifs with h1 h2 <;> simp

/-- Helper for C1: `determineConfidence` returns `insufficient` exactly on
an empty citation list or an explicit no-information admission.  With at
least one citation the score is at least `0.3`, landing on `low` or
better; with none, the score is at most `0.2`. -/
theorem determineConfidence_insufficient_iff (content : String)
    (citations : List SourceCitation) (chunks : List RetrievedChunk) :
    ResponseProcessor.determineConfidence content citations chunks = .insufficient ↔
      (citations = [] ∨ ResponseProcessor.hasNoInfoAdmission content = true) := by
  unfold ResponseProcessor.determineConfidence
  cases hAdm : ResponseProcessor.hasNoInfoAdmission content with
  | true => simp
  | false =>
    simp only [Bool.false_eq_true, if_false, or_false]
    rcases citations with _ | ⟨c, cs⟩
    · cases hU : ResponseProcessor.uncertaintyMarkers.any
          (fun m => containsStr (lowerStr content) m) <;>
        norm_num [hU]
    · simp only [List.cons_ne_nil, iff_false, List.length_cons]
      apply level_chain_ne
      split_ifs <;> first | (exfalso; omega) | norm_num

/-- C1: `process` returns confidence `insufficient` if and only if zero
citations were resolved from the answer text or the answer contains an
explicit no-information admission; in particular an answer with no
citation markers at all yields `insufficient` regardless of the chunks
and their relevance scores. -/
theorem C1_insufficient_iff_uncited_or_admission (resp : LLMResponse)
    (chunks : List RetrievedChunk) (t : Nat) :
    ((ResponseProcessor.process resp chunks t).confidence = .insufficient ↔
      (ResponseProcessor.extractCitations resp.content chunks = [] ∨
        ResponseProcessor.hasNoInfoAdmission resp.content = true)) ∧
    (scanCitations resp.content.data = [] →
      (ResponseProcessor.process resp chunks t).confidence = .insufficient) := by
  have hiff := determineConfidence_insufficient_iff resp.content
    (ResponseProcessor.extractCitations resp.content chunks) chunks
  refine ⟨hiff, fun hscan => hiff.mpr (Or.inl ?_)⟩
  simp [ResponseProcessor.extractCitations, hscan, ResponseProcessor.sortCitations]

/-- Witness for C1: a response with no citation markers over no chunks is
judged `insufficient`. -/
theorem C1_witness :
    (ResponseProcessor.process exResponse1 [] 0).confidence = .insufficient :=
  (C1_insufficient_iff_uncited_or_admission exResponse1 [] 0).2 (by decide)

/-! ### C6 — budgeted selection admits at least one chunk -/

/-- Helper for C6 and C3: complete characterization of the `selectChunks`
loop once one chunk has been accepted (`nonempty = true`, running total
`acc`): the loop returns a prefix `take k`; every accepted chunk kept the
running total within the budget; and if the loop stopped early, the next
chunk would have exceeded the budget. -/
theorem selectAux_true_spec (l : List RetrievedChunk) : ∀ acc : Nat,
    ∃ k, PromptBuilder.selectAux l acc true = l.take k ∧ k ≤ l.length ∧
      (∀ j < k, acc + PromptBuilder.sumTokens (l.take (j + 1)) ≤
        PromptBuilder.MAX_CONTEXT_TOKENS) ∧
      (k < l.length → PromptBuilder.MAX_CONTEXT_TOKENS <
        acc + PromptBuilder.sumTokens (l.take (k + 1))) := by
  induction l with
  | nil =>
    intro acc
    exact ⟨0, rfl, Nat.le_refl 0, fun j hj => absurd hj (Nat.not_lt_zero j),
      fun h => absurd h (Nat.not_lt_zero 0)⟩
  | cons c cs ih =>
    intro acc
    by_cases hcond : acc + PromptBuilder.chunkTokens c > PromptBuilder.MAX_CONTEXT_TOKENS
    · refine ⟨0, ?_, Nat.zero_le _, fun j hj => absurd hj (Nat.not_lt_zero j), fun _ => ?_⟩
      · simp [PromptBuilder.selectAux, hcond]
      · simpa [PromptBuilder.sumTokens] using hcond
    · obtain ⟨k, hk, hkle, hwithin, hstop⟩ := ih (acc + PromptBuilder.chunkTokens c)
      refine ⟨k + 1, ?_, by simpa using Nat.succ_le_succ hkle, ?_, ?_⟩
      · simp [PromptBuilder.selectAux, hcond, hk]
      · intro j hj
        cases j with
        | zero => simpa [PromptBuilder.sumTokens] using Nat.le_of_not_lt hcond
        | succ j' =>
          have := hwithin j' (Nat.lt_of_succ_lt_succ hj)
          simp only [PromptBuilder.sumTokens, List.take_succ_cons, List.map_cons,
            List.sum_cons] at this ⊢
          omega
      · intro hlt
        have := hstop (Nat.lt_of_succ_lt_succ (by simpa using hlt))
        simp only [PromptBuilder.sumTokens, List.take_succ_cons, List.map_cons,
          List.sum_cons] at this ⊢
        omega

/-- C6: for every non-empty chunk list, `PromptBuilder.build` includes at
least one chunk in the context; the selection is a prefix of the input
containing the first chunk, every accepted chunk after the first kept the
running token total within the 4000-token budget, and selection stopped at
the first chunk that would have exceeded the budget. -/
theorem C6_selection_nonempty_and_greedy (q : AnalyzedQuery) (chunks : List RetrievedChunk)
    (fmt : ResponseFormat) (h : chunks ≠ []) :
    (PromptBuilder.build q chunks fmt).contextChunks ≠ [] ∧
    ∃ k, 1 ≤ k ∧ (PromptBuilder.build q chunks fmt).contextChunks = chunks.take k ∧
      (∀ j, 1 ≤ j → j < k → PromptBuilder.sumTokens (chunks.take (j + 1)) ≤
        PromptBuilder.MAX_CONTEXT_TOKENS) ∧
      (k < chunks.length → PromptBuilder.MAX_CONTEXT_TOKENS <
        PromptBuilder.sumTokens (chunks.take (k + 1))) := by
  rcases chunks with _ | ⟨c, cs⟩
  · exact absurd rfl h
  · have hsel : (PromptBuilder.build q (c :: cs) fmt).contextChunks =
        c :: PromptBuilder.selectAux cs (0 + PromptBuilder.chunkTokens c) true := by
      show PromptBuilder.selectChunks (c :: cs) = _
      simp [PromptBuilder.selectChunks, PromptBuilder.selectAux]
    obtain ⟨k, hk, _, hwithin, hstop⟩ :=
      selectAux_true_spec cs (0 + PromptBuilder.chunkTokens c)
    refine ⟨by simp [hsel], k + 1, Nat.succ_le_succ (Nat.zero_le k), ?_, ?_, ?_⟩
    · rw [hsel, hk, List.take_succ_cons]
    · intro j hj1 hjk
      rcases j with _ | j'
      · omega
      · have := hwithin j' (Nat.lt_of_succ_lt_succ hjk)
        simp only [PromptBuilder.sumTokens, List.take_succ_cons, List.map_cons,
          List.sum_cons] at this ⊢
        omega
    · intro hlt
      have := hstop (by simpa using Nat.lt_of_succ_lt_succ hlt)
      simp only [PromptBuilder.sumTokens, List.take_succ_cons, List.map_cons,
        List.sum_cons] at this ⊢
      omega

/-- Witness for C6: a one-chunk list; the chunk is selected. -/
theorem C6_witness :
    (PromptBuilder.build exQuery [exChunk "c1" "one" 0.9 1] .markdown).contextChunks ≠ [] :=
  (C6_selection_nonempty_and_greedy exQuery [exChunk "c1" "one" 0.9 1] .markdown
    (by simp)).1

/-! ### C3 — what the token budget actually bounds -/

/-- Helper: `estimateTokens` in terms of `String.length`. -/
theorem estimateTokens_eq (s : String) :
    PromptBuilder.estimateTokens s = (s.length + 3) / 4 := rfl

/-- C3 counterexample: a single chunk of 15996 characters.  Its token
estimate is `3999`, within the 4000-token budget — so the claim's
exception (first passage alone exceeding the budget) does not apply — and
it is selected; yet `BuiltPrompt.estimatedTokens`, which measures the
whole rendered prompt including the instruction scaffolding, exceeds
4000. -/
theorem C3_counterexample :
    PromptBuilder.chunkTokens bigChunk ≤ PromptBuilder.MAX_CONTEXT_TOKENS ∧
    PromptBuilder.selectChunks [bigChunk] = [bigChunk] ∧
    PromptBuilder.MAX_CONTEXT_TOKENS <
      (PromptBuilder.build exQuery [bigChunk] .markdown).estimatedTokens := by
  have hdata : bigChunk.content.data.length = 15996 := List.length_replicate 15996 'a'
  have hct : PromptBuilder.chunkTokens bigChunk = 3999 := by
    unfold PromptBuilder.chunkTokens PromptBuilder.TOKEN_ESTIMATE_RATIO
    rw [hdata]
  have hsel : PromptBuilder.selectChunks [bigChunk] = [bigChunk] := by
    simp only [PromptBuilder.selectChunks, PromptBuilder.selectAux, Bool.false_eq_true,
      and_false, if_false]
  have huser : 16008 ≤ (PromptBuilder.buildUserPrompt exQuery [bigChunk] .markdown).length := by
    have hcl : bigChunk.content.length = 15996 := hdata
    have hc12 : ("## Context\n\n" : String).length = 12 := by decide
    unfold PromptBuilder.buildUserPrompt PromptBuilder.buildContextSection
    rw [show PromptBuilder.contextSections 0 [bigChunk] =
      ["### Source " ++ toString (0 + 1) ++ "\n**Metadata**: " ++
        PromptBuilder.chunkMetadataLine bigChunk ++ "\n\n" ++ bigChunk.content] from rfl]
    rw [show String.intercalate "\n\n---\n\n"
      ["### Source " ++ toString (0 + 1) ++ "\n**Metadata**: " ++
        PromptBuilder.chunkMetadataLine bigChunk ++ "\n\n" ++ bigChunk.content] =
      "### Source " ++ toString (0 + 1) ++ "\n**Metadata**: " ++
        PromptBuilder.chunkMetadataLine bigChunk ++ "\n\n" ++ bigChunk.content from rfl]
    simp only [List.isEmpty_cons, Bool.false_eq_true, if_false, String.length_append,
      hcl, hc12]
    omega
  refine ⟨by rw [hct]; norm_num [PromptBuilder.MAX_CONTEXT_TOKENS], hsel, ?_⟩
  have hbuild : (PromptBuilder.build exQuery [bigChunk] ResponseFormat.markdown).estimatedTokens =
      PromptBuilder.estimateTokens (PromptBuilder.buildSystemPrompt .general .markdown ++
        PromptBuilder.buildUserPrompt exQuery [bigChunk] .markdown) := by
    show PromptBuilder.estimateTokens (PromptBuilder.buildSystemPrompt exQuery.intent .markdown ++
      PromptBuilder.buildUserPrompt exQuery (PromptBuilder.selectChunks [bigChunk]) .markdown) = _
    rw [hsel]
    rfl
  rw [hbuild, estimateTokens_eq, String.length_append]
  show 4000 < ((PromptBuilder.buildSystemPrompt .general .markdown).length +
    (PromptBuilder.buildUserPrompt exQuery [bigChunk] .markdown).length + 3) / 4
  omega

/-- C3 (corrected): what the 4000-token budget bounds is the total
content-token estimate of the selected chunks — that total never exceeds
the budget unless the selection is just the first chunk, which is admitted
regardless of size.  `BuiltPrompt.estimatedTokens` measures the entire
rendered prompt (instruction scaffolding, context formatting and question
included) and can exceed 4000 even when no selected chunk alone exceeds
the budget. -/
theorem C3_amended_budget_bounds_selection (q : AnalyzedQuery)
    (chunks : List RetrievedChunk) (fmt : ResponseFormat) :
    PromptBuilder.sumTokens (PromptBuilder.build q chunks fmt).contextChunks ≤
      PromptBuilder.MAX_CONTEXT_TOKENS ∨
    (PromptBuilder.build q chunks fmt).contextChunks = chunks.take 1 := by
  rcases chunks with _ | ⟨c, cs⟩
  · left
    show PromptBuilder.sumTokens (PromptBuilder.selectChunks []) ≤ _
    simp [PromptBuilder.selectChunks, PromptBuilder.selectAux, PromptBuilder.sumTokens,
      PromptBuilder.MAX_CONTEXT_TOKENS]
  · have hsel : (PromptBuilder.build q (c :: cs) fmt).contextChunks =
        c :: PromptBuilder.selectAux cs (0 + PromptBuilder.chunkTokens c) true := by
      show PromptBuilder.selectChunks (c :: cs) = _
      simp [PromptBuilder.selectChunks, PromptBuilder.selectAux]
    obtain ⟨k, hk, _, hwithin, _⟩ := selectAux_true_spec cs (0 + PromptBuilder.chunkTokens c)
    rcases Nat.eq_zero_or_pos k with hk0 | hkpos
    · right
      rw [hsel, hk, hk0]
      simp
    · left
      have := hwithin (k - 1) (by omega)
      have hk1 : k - 1 + 1 = k := by omega
      rw [hk1] at this
      rw [hsel, hk]
      have htake : PromptBuilder.selectAux cs (0 + PromptBuilder.chunkTokens c) true =
        cs.take k := hk
      simp only [PromptBuilder.sumTokens, List.map_cons, List.sum_cons] at this ⊢
      omega

/-! ### C5 — rank density after reranking -/

/-- Score-descending order between two chunks. -/
def scoreGE (a b : RetrievedChunk) : Prop := b.score ≤ a.score

/-- Helper: membership in an insertion. -/
theorem mem_insertDesc {x c : RetrievedChunk} : ∀ {l : List RetrievedChunk},
    x ∈ RetrievalService.insertDesc c l → x = c ∨ x ∈ l := by
  intro l
  induction l with
  | nil =>
    intro h
    rw [RetrievalService.insertDesc] at h
    exact Or.inl (List.mem_singleton.mp h)
  | cons d ds ih =>
    intro h
    rw [RetrievalService.insertDesc] at h
    split_ifs at h
    · rcases List.mem_cons.mp h with h1 | h2
      · exact Or.inl h1
      · exact Or.inr h2
    · rcases List.mem_cons.mp h with h1 | h2
      · exact Or.inr (h1 ▸ List.mem_cons_self d ds)
      · rcases ih h2 with h3 | h4
        · exact Or.inl h3
        · exact Or.inr (List.mem_cons_of_mem d h4)

/-- Helper: inserting into a score-descending list keeps it descending. -/
theorem pairwise_insertDesc {c : RetrievedChunk} : ∀ {l : List RetrievedChunk},
    l.Pairwise scoreGE → (RetrievalService.insertDesc c l).Pairwise scoreGE := by
  intro l
  induction l with
  | nil => intro _; simp [RetrievalService.insertDesc, scoreGE]
  | cons d ds ih =>
    intro h
    rw [List.pairwise_cons] at h
    obtain ⟨hd, hds⟩ := h
    rw [RetrievalService.insertDesc]
    split_ifs with hlt
    · refine List.Pairwise.cons ?_ (List.Pairwise.cons hd hds)
      intro y hy
      rcases List.mem_cons.mp hy with rfl | hy2
      · exact le_of_lt hlt
      · exact le_trans (hd y hy2) (le_of_lt hlt)
    · refine List.Pairwise.cons ?_ (ih hds)
      intro y hy
      rcases mem_insertDesc hy with rfl | hy2
      · exact le_of_not_lt hlt
      · exact hd y hy2

/-- Helper: the length of an insertion. -/
theorem insertDesc_length (c : RetrievedChunk) : ∀ l : List RetrievedChunk,
    (RetrievalService.insertDesc c l).length = l.length + 1 := by
  intro l
  induction l with
  | nil => rfl
  | cons d ds ih =>
    rw [RetrievalService.insertDesc]
    split_ifs <;> simp [ih]

/-- Helper: the stable descending sort is a descending list of the same
length. -/
theorem sortByScoreDesc_spec (chunks : List RetrievedChunk) :
    (RetrievalService.sortByScoreDesc chunks).Pairwise scoreGE ∧
    (RetrievalService.sortByScoreDesc chunks).length = chunks.length := by
  have main : ∀ (l acc : List RetrievedChunk), acc.Pairwise scoreGE →
      (l.foldl (fun acc c => RetrievalService.insertDesc c acc) acc).Pairwise scoreGE ∧
      (l.foldl (fun acc c => RetrievalService.insertDesc c acc) acc).length =
        acc.length + l.length := by
    intro l
    induction l with
    | nil => intro acc h; simpa using h
    | cons c cs ih =>
      intro acc h
      obtain ⟨h1, h2⟩ := ih (RetrievalService.insertDesc c acc) (pairwise_insertDesc h)
      refine ⟨h1, ?_⟩
      rw [List.foldl_cons, h2, insertDesc_length]
      simp [Nat.add_comm, Nat.add_assoc, Nat.add_left_comm]
  have := main chunks [] (List.Pairwise.nil)
  simpa [RetrievalService.sortByScoreDesc] using this

/-- Helper: rank reassignment yields consecutive ranks from the start
index. -/
theorem assignRanks_map_rank : ∀ (l : List RetrievedChunk) (i : Nat),
    (RetrievalService.assignRanks i l).map RetrievedChunk.rank = List.range' i l.length := by
  intro l
  induction l with
  | nil => intro i; rfl
  | cons c cs ih =>
    intro i
    rw [RetrievalService.assignRanks, List.map_cons, ih (i + 1)]
    rfl

/-- Helper: rank reassignment does not change scores of members. -/
theorem score_of_mem_assignRanks {y : RetrievedChunk} : ∀ {l : List RetrievedChunk} {i : Nat},
    y ∈ RetrievalService.assignRanks i l → ∃ x ∈ l, y.score = x.score := by
  intro l
  induction l with
  | nil => intro i h; simp [RetrievalService.assignRanks] at h
  | cons c cs ih =>
    intro i h
    rw [RetrievalService.assignRanks] at h
    rcases List.mem_cons.mp h with rfl | h2
    · exact ⟨c, List.mem_cons_self c cs, rfl⟩
    · obtain ⟨x, hx, hs⟩ := ih h2
      exact ⟨x, List.mem_cons_of_mem c hx, hs⟩

/-- Helper: rank reassignment preserves the score-descending property. -/
theorem pairwise_assignRanks : ∀ {l : List RetrievedChunk} {i : Nat},
    l.Pairwise scoreGE → (RetrievalService.assignRanks i l).Pairwise scoreGE := by
  intro l
  induction l with
  | nil => intro i _; exact List.Pairwise.nil
  | cons c cs ih =>
    intro i h
    rw [List.pairwise_cons] at h
    obtain ⟨hc, hcs⟩ := h
    rw [RetrievalService.assignRanks]
    refine List.Pairwise.cons ?_ (ih hcs)
    intro y hy
    obtain ⟨x, hx, hs⟩ := score_of_mem_assignRanks hy
    show y.score ≤ _
    rw [hs]
    exact hc x hx

/-- C5 (corrected): after `RetrievalService.rerank`, the ranks are exactly
`1..N` with no gaps or repeats and the scores are non-increasing in rank
order.  The final list the retrieval pipeline returns preserves this order
but not the density: deduplication runs *after* reranking and removes
fingerprint collisions without reassigning ranks (see the
counterexample), so the pipeline's output ranks may have gaps. -/
theorem C5_amended_rerank_dense (chunks : List RetrievedChunk) (q : AnalyzedQuery) :
    (RetrievalService.rerank chunks q).map RetrievedChunk.rank =
      List.range' 1 chunks.length ∧
    (RetrievalService.rerank chunks q).Pairwise (fun a b => b.score ≤ a.score) := by
  obtain ⟨hpair, hlen⟩ := sortByScoreDesc_spec chunks
  constructor
  · rw [RetrievalService.rerank, assignRanks_map_rank, hlen]
  · exact pairwise_assignRanks hpair

/-- C5 counterexample: running the retrieval pipeline tail with default
options (rerank and deduplicate both on) over three search results whose
first two contents collide, the returned list has ranks `[1, 3]` — rank
`2` was removed by deduplication after reranking — so the pipeline's
output ranks are not the dense `1..N` the claim asserts. -/
theorem C5_counterexample :
    exPipelineResult.map RetrievedChunk.rank ≠
      List.range' 1 exPipelineResult.length := by
  have hne : RetrievalService.createFingerprint "dup" ≠
      RetrievalService.createFingerprint "uniq" := by decide
  have hga : (QueryIntent.general = QueryIntent.api_reference) = False := by simp
  have hgr : (QueryIntent.general = QueryIntent.architecture) = False := by simp
  have hmap : exPipelineResult.map RetrievedChunk.rank = [1, 3] := by
    norm_num [exPipelineResult, RetrievalService.retrievePost,
      RetrievalService.resolveRetrievalOptions, RetrievalService.DEFAULT_RETRIEVAL_OPTIONS,
      RetrievalService.toChunks, RetrievalService.calculateScore, RetrievalService.rerank,
      RetrievalService.sortByScoreDesc, RetrievalService.insertDesc,
      RetrievalService.assignRanks, RetrievalService.deduplicate, RetrievalService.dedupGo,
      RetrievalService.lookupFp, RetrievalService.replaceFp, exQuery, exSearchResult,
      min_def, hne, hga, hgr, false_and, and_false, if_false]
  have hlen : exPipelineResult.length = 2 := by
    have := congrArg List.length hmap
    simpa using this
  rw [hmap, hlen]
  decide

end Robotin
